import Mathlib

/-!
# sturdds : `include/sturdds/publisher.hpp`

A shallow embedding of the class template `sturdds::Publisher<DataType>` and of the part of
the pub/sub middleware it calls, followed by theorems about construction, destruction and the
match-count callback.

* Pointers are `Option Nat` (`none` is `nullptr`), addresses are natural numbers.
* The middleware lives outside the repository.  Its observable state (registered types,
  topics, publishers, data writers, the heap of type-support objects) is a `World`, every
  operation on it is appended to `World.calls`, and whether a fallible operation succeeds is
  read from `World.answers`.
* `int` is a 32-bit two's-complement integer: arithmetic on it goes through `wrap32`.
* Dereferencing or deleting an object that is not alive is `Outcome.undefined`.
* `Publish` only forwards to `writer_->write` and is not modelled.
-/

namespace sturdds

/-! ## Machine integers -/

/-- The value of a mathematical integer once stored in a 32-bit two's-complement `int`.
Signed overflow is undefined in C++; the model takes the wrapped value that the usual targets
produce, and the positive results below assume that no overflow happens at all. -/
def wrap32 (x : Int) : Int := (x + 2147483648) % 4294967296 - 2147483648

/-! ## The middleware -/

/-- A `PublisherQos` value; its contents are never inspected by the wrapper. -/
abbrev PublisherQos := Nat

/-- A `DomainParticipant*` argument: null, or a pointer to the participant of the world. -/
inductive ParticipantPtr where
  | nullptr
  | valid
deriving DecidableEq, Repr

/-- A type-support object on the heap; `type_name` is what `get_type_name()` returns. -/
structure TypeSupport where
  addr : Nat
  type_name : String
deriving DecidableEq, Repr

/-- A topic owned by the participant. -/
structure Topic where
  addr : Nat
  topic_name : String
  type_name : String
deriving DecidableEq, Repr

/-- A middleware publisher entity owned by the participant. -/
structure PublisherEntity where
  addr : Nat
  qos : PublisherQos
deriving DecidableEq, Repr

/-- A data writer: the publisher it belongs to, the topic it writes and its listener. -/
structure DataWriter where
  addr : Nat
  publisher : Nat
  topic : Nat
  listener : Nat
deriving DecidableEq, Repr

/-- The entities of the domain participant. -/
structure DomainParticipant where
  types : List String
  topics : List Topic
  publishers : List PublisherEntity
  writers : List DataWriter
deriving DecidableEq, Repr

/-- One invocation of a middleware or heap operation, with its arguments and its result. -/
inductive Call where
  | new_TypeSupport (ts : Nat)
  | register_type (ts : Nat) (ok : Bool)
  | create_topic (topic_name type_name : String) (ret : Option Nat)
  | create_publisher (qos : PublisherQos) (ret : Option Nat)
  | create_datawriter (publisher topic listener : Nat) (ret : Option Nat)
  | delete_datawriter (publisher writer : Nat) (ok : Bool)
  | delete_publisher (publisher : Nat) (ok : Bool)
  | delete_topic (topic : Nat) (ok : Bool)
  | delete_TypeSupport (ts : Nat)
deriving DecidableEq, Repr

/-- What the middleware answers to the four fallible steps of a construction.
`register_type` is the truth value of `type_support_->register_type(participant_)` as the
constructor tests it; the other three say whether the created entity is non-null. -/
structure Answers where
  register_type : Bool
  create_topic : Bool
  create_publisher : Bool
  create_datawriter : Bool
deriving DecidableEq, Repr

/-- Everything outside the `Publisher` object. -/
structure World where
  participant : DomainParticipant
  heap : List TypeSupport
  next : Nat
  calls : List Call
  answers : Answers
deriving DecidableEq, Repr

/-- Addresses handed out so far are below `next`, so a new address is not in use. -/
def World.WF (w : World) : Prop :=
  (∀ s ∈ w.heap, s.addr < w.next) ∧
  (∀ t ∈ w.participant.topics, t.addr < w.next) ∧
  (∀ p ∈ w.participant.publishers, p.addr < w.next) ∧
  (∀ d ∈ w.participant.writers, d.addr < w.next ∧ d.publisher < w.next ∧ d.topic < w.next)

/-- Result of running code: a value, a thrown `std::runtime_error`, or undefined behaviour. -/
inductive Outcome (α : Type) where
  | ok (val : α) (w : World)
  | thrown (what : String) (w : World)
  | undefined
deriving DecidableEq, Repr

/-- Code that runs against the world. -/
def M (α : Type) : Type := World → Outcome α

/-- Sequencing: a throw or undefined behaviour ends the run. -/
def M.bind {α β : Type} (m : M α) (f : α → M β) : M β := fun w =>
  match m w with
  | .ok a w1 => f a w1
  | .thrown s w1 => .thrown s w1
  | .undefined => .undefined

/-- Returning a value leaves the world alone. -/
def M.pure {α : Type} (a : α) : M α := fun w => .ok a w

instance : Monad M where
  pure := M.pure
  bind := M.bind

/-- The statement `throw std::runtime_error(what)`. -/
def throw_runtime_error {α : Type} (what : String) : M α := fun w => .thrown what w

/-- The expression `new DataType::TypeSupport()`; the type name comes from `DataType`. -/
def new_TypeSupport (type_name : String) : M Nat := fun w =>
  .ok w.next { w with
    heap := ⟨w.next, type_name⟩ :: w.heap
    next := w.next + 1
    calls := w.calls ++ [.new_TypeSupport w.next] }

/-- The statement `delete ts`: the object must be alive. -/
def delete_TypeSupport (ts : Nat) : M Unit := fun w =>
  if w.heap.any (fun s => s.addr = ts) then
    .ok () { w with
      heap := w.heap.filter (fun s => s.addr ≠ ts)
      calls := w.calls ++ [.delete_TypeSupport ts] }
  else .undefined

/-- The call `ts->get_type_name()`: reads the object, which must be alive. -/
def get_type_name (ts : Nat) : M String := fun w =>
  match w.heap.find? (fun s => s.addr = ts) with
  | some s => .ok s.type_name w
  | none => .undefined

/-- The call `ts->register_type(participant)`, converted to `bool` the way the constructor
tests it; the answer is a parameter of the world. -/
def register_type (ts : Nat) : M Bool := fun w =>
  match w.heap.find? (fun s => s.addr = ts) with
  | some s =>
    if w.answers.register_type then
      .ok true { w with
        participant.types := w.participant.types.insert s.type_name
        calls := w.calls ++ [.register_type ts true] }
    else
      .ok false { w with calls := w.calls ++ [.register_type ts false] }
  | none => .undefined

/-- The call `participant->create_topic(topic_name, type_name, TopicQos())`; whether it
returns null is a parameter of the world. -/
def create_topic (topic_name type_name : String) : M (Option Nat) := fun w =>
  if w.answers.create_topic then
    .ok (some w.next) { w with
      participant.topics := w.participant.topics ++ [⟨w.next, topic_name, type_name⟩]
      next := w.next + 1
      calls := w.calls ++ [.create_topic topic_name type_name (some w.next)] }
  else
    .ok none { w with calls := w.calls ++ [.create_topic topic_name type_name none] }

/-- The call `participant->create_publisher(qos)`; whether it returns null is a parameter of
the world. -/
def create_publisher (qos : PublisherQos) : M (Option Nat) := fun w =>
  if w.answers.create_publisher then
    .ok (some w.next) { w with
      participant.publishers := w.participant.publishers ++ [⟨w.next, qos⟩]
      next := w.next + 1
      calls := w.calls ++ [.create_publisher qos (some w.next)] }
  else
    .ok none { w with calls := w.calls ++ [.create_publisher qos none] }

/-- The call `publisher->create_datawriter(topic, DataWriterQos(), listener)`; whether it
returns null is a parameter of the world. -/
def create_datawriter (publisher topic listener : Nat) : M (Option Nat) := fun w =>
  if w.answers.create_datawriter then
    .ok (some w.next) { w with
      participant.writers := w.participant.writers ++ [⟨w.next, publisher, topic, listener⟩]
      next := w.next + 1
      calls := w.calls ++ [.create_datawriter publisher topic listener (some w.next)] }
  else
    .ok none { w with
      calls := w.calls ++ [.create_datawriter publisher topic listener none] }

/-- Modelled from the spec: the middleware call `publisher->delete_datawriter(writer)`, whose
code is outside the repository.  It succeeds when the writer belongs to the publisher; the
wrapper ignores the return code. -/
def delete_datawriter (publisher writer : Nat) : M Unit := fun w =>
  if w.participant.writers.any (fun d => d.addr = writer ∧ d.publisher = publisher) then
    .ok () { w with
      participant.writers := w.participant.writers.filter (fun d => d.addr ≠ writer)
      calls := w.calls ++ [.delete_datawriter publisher writer true] }
  else
    .ok () { w with calls := w.calls ++ [.delete_datawriter publisher writer false] }

/-- Modelled from the spec: the middleware call `participant->delete_publisher(publisher)`,
whose code is outside the repository.  A publisher can only be deleted once it has no writers;
the wrapper ignores the return code. -/
def delete_publisher (publisher : Nat) : M Unit := fun w =>
  if w.participant.publishers.any (fun p => p.addr = publisher) ∧
      ¬ w.participant.writers.any (fun d => d.publisher = publisher) then
    .ok () { w with
      participant.publishers := w.participant.publishers.filter (fun p => p.addr ≠ publisher)
      calls := w.calls ++ [.delete_publisher publisher true] }
  else
    .ok () { w with calls := w.calls ++ [.delete_publisher publisher false] }

/-- Modelled from the spec: the middleware call `participant->delete_topic(topic)`, whose code
is outside the repository.  A topic can only be deleted once no writer refers to it; the wrapper
ignores the return code. -/
def delete_topic (topic : Nat) : M Unit := fun w =>
  if w.participant.topics.any (fun t => t.addr = topic) ∧
      ¬ w.participant.writers.any (fun d => d.topic = topic) then
    .ok () { w with
      participant.topics := w.participant.topics.filter (fun t => t.addr ≠ topic)
      calls := w.calls ++ [.delete_topic topic true] }
  else
    .ok () { w with calls := w.calls ++ [.delete_topic topic false] }

/-! ## The wrapper class -/

/-- The data members of `sturdds::Publisher<DataType>`. -/
structure Publisher where
  topic_name_ : String
  participant_ : ParticipantPtr
  publisher_ : Option Nat
  writer_ : Option Nat
  type_support_ : Option Nat
  topic_ : Option Nat
  num_matches_ : Int
  is_matched_ : Bool
deriving DecidableEq, Repr

/-- The destructor `Publisher::~Publisher()`.  `publisher_->` and `participant_->` dereference
the stored pointers, so a null one there is undefined behaviour. -/
def Publisher.destructor (self : Publisher) : M Unit := do
  if let some writer_ := self.writer_ then
    let some publisher_ := self.publisher_ | (fun _ => .undefined)
    delete_datawriter publisher_ writer_
  if let some publisher_ := self.publisher_ then
    if self.participant_ = .nullptr then (fun _ => .undefined)
    delete_publisher publisher_
  if let some topic_ := self.topic_ then
    if self.participant_ = .nullptr then (fun _ => .undefined)
    delete_topic topic_
  if let some type_support_ := self.type_support_ then
    delete_TypeSupport type_support_

/-- The member function `Publisher::IsMatched()`. -/
def Publisher.IsMatched (self : Publisher) : Bool := self.is_matched_

/-- The member function `Publisher::GetNumSubscribers()`. -/
def Publisher.GetNumSubscribers (self : Publisher) : Int := self.num_matches_

/-- The member function `Publisher::GetWriter()`. -/
def Publisher.GetWriter (self : Publisher) : Option Nat := self.writer_

/-- The arguments of one `on_publication_matched` callback: the GUID of the writer passed in
and the field `info.current_count_change`. -/
structure PublicationMatched where
  writer_guid : String
  current_count_change : Int
deriving DecidableEq, Repr

/-- The callback `Publisher::on_publication_matched(writer, info)`: the object afterwards and
the lines written to `std::cout`. -/
def Publisher.on_publication_matched (self : Publisher) (ev : PublicationMatched) :
    Publisher × List String :=
  if ev.current_count_change = 1 then
    ({ self with
        is_matched_ := true
        num_matches_ := wrap32 (self.num_matches_ + 1) },
      ["Publisher matched a subscriber (Writer: " ++ ev.writer_guid ++ ")."])
  else if ev.current_count_change = -1 then
    let num_matches_ := wrap32 (self.num_matches_ - 1)
    ({ self with
        num_matches_ := num_matches_
        is_matched_ := if num_matches_ = 0 then false else self.is_matched_ },
      ["Publisher unmatched a subscriber (Writer: " ++ ev.writer_guid ++ ")."])
  else
    (self, [])

/-- The object after the middleware has delivered the callbacks `evs` in order. -/
def Publisher.deliver (self : Publisher) (evs : List PublicationMatched) : Publisher :=
  evs.foldl (fun p ev => (p.on_publication_matched ev).1) self

/-- The constructor `Publisher::Publisher(topic_name, participant, qos)`.  `type_name` is the
name carried by `DataType::TypeSupport` and `self` is the address of the object (`this`), which is
handed to the middleware as listener.  A throw discards the object. -/
def Publisher.Publisher (type_name : String) (self : Nat)
    (topic_name : String) (participant : ParticipantPtr) (qos : PublisherQos) :
    M Publisher := do
  if participant = .nullptr then
    throw_runtime_error "DomainParticipant cannot be null."
  -- define custom type
  let type_support_ ← new_TypeSupport type_name
  if !(← register_type type_support_) then
    delete_TypeSupport type_support_
    throw_runtime_error ("Error registering type: " ++ (← get_type_name type_support_))
  -- create topic
  let some topic_ ← create_topic topic_name (← get_type_name type_support_)
    | do
      delete_TypeSupport type_support_
      throw_runtime_error ("Error creating DDS Topic: " ++ topic_name)
  -- create publisher
  let some publisher_ ← create_publisher qos
    | do
      delete_topic topic_
      delete_TypeSupport type_support_
      throw_runtime_error "Error creating DDS Publisher."
  -- create data writer
  let some writer_ ← create_datawriter publisher_ topic_ self
    | do
      delete_topic topic_
      delete_publisher publisher_
      delete_TypeSupport type_support_
      throw_runtime_error ("Error creating DDS DataWriter for topic: " ++ topic_name)
  return {
    topic_name_ := topic_name
    participant_ := participant
    publisher_ := some publisher_
    writer_ := some writer_
    type_support_ := some type_support_
    topic_ := some topic_
    num_matches_ := 0
    is_matched_ := false }

/-- Number of match events (`current_count_change = 1`) in a sequence of callbacks. -/
def match_events (evs : List PublicationMatched) : Nat :=
  evs.countP (fun ev => ev.current_count_change = 1)

/-- Number of unmatch events (`current_count_change = -1`) in a sequence of callbacks. -/
def unmatch_events (evs : List PublicationMatched) : Nat :=
  evs.countP (fun ev => ev.current_count_change = -1)

/-- Match events minus unmatch events. -/
def net (evs : List PublicationMatched) : Int := (match_events evs : Int) - (unmatch_events evs : Int)

/-! ## Concrete worlds used to exercise the definitions -/

/-- A participant that already owns a topic, a publisher and a writer; every step succeeds. -/
def world_ok : World where
  participant := {
    types := ["Old"]
    topics := [⟨1, "old_topic", "Old"⟩]
    publishers := [⟨2, 5⟩]
    writers := [⟨3, 2, 1, 0⟩] }
  heap := [⟨0, "Old"⟩]
  next := 10
  calls := []
  answers := ⟨true, true, true, true⟩

/-- The same world with the given answers to the four fallible steps. -/
def world_with (a : Answers) : World := { world_ok with answers := a }

/-- The object built on `world_ok` for topic `chatter`, type `Msg`, QoS 7, at address 99. -/
def publisher_ok : Publisher where
  topic_name_ := "chatter"
  participant_ := .valid
  publisher_ := some 12
  writer_ := some 13
  type_support_ := some 10
  topic_ := some 11
  num_matches_ := 0
  is_matched_ := false

/-- The world once `publisher_ok` has been constructed on `world_ok`. -/
def world_constructed : World where
  participant := {
    types := ["Msg", "Old"]
    topics := [⟨1, "old_topic", "Old"⟩, ⟨11, "chatter", "Msg"⟩]
    publishers := [⟨2, 5⟩, ⟨12, 7⟩]
    writers := [⟨3, 2, 1, 0⟩, ⟨13, 12, 11, 99⟩] }
  heap := [⟨10, "Msg"⟩, ⟨0, "Old"⟩]
  next := 14
  calls := [.new_TypeSupport 10, .register_type 10 true,
    .create_topic "chatter" "Msg" (some 11), .create_publisher 7 (some 12),
    .create_datawriter 12 11 99 (some 13)]
  answers := ⟨true, true, true, true⟩

/-- One match event. -/
def matched : PublicationMatched := ⟨"guid", 1⟩

/-- One unmatch event. -/
def unmatched : PublicationMatched := ⟨"guid", -1⟩

/-! ## Auxiliary facts -/

theorem find?_false {α : Type} (l : List α) : l.find? (fun _ => false) = none := by
  induction l <;> simp [List.find?, *]

theorem ctor_success (type_name : String) (self : Nat) (topic_name : String) (qos : PublisherQos)
    (w : World) (h : w.answers = ⟨true, true, true, true⟩) :
    Publisher.Publisher type_name self topic_name .valid qos w =
      .ok { topic_name_ := topic_name, participant_ := .valid, publisher_ := some (w.next + 2),
            writer_ := some (w.next + 3), type_support_ := some w.next,
            topic_ := some (w.next + 1), num_matches_ := 0, is_matched_ := false }
          { w with
            participant := {
              types := w.participant.types.insert type_name
              topics := w.participant.topics ++ [⟨w.next + 1, topic_name, type_name⟩]
              publishers := w.participant.publishers ++ [⟨w.next + 2, qos⟩]
              writers := w.participant.writers ++ [⟨w.next + 3, w.next + 2, w.next + 1, self⟩] }
            heap := ⟨w.next, type_name⟩ :: w.heap
            next := w.next + 4
            calls := w.calls ++ [.new_TypeSupport w.next, .register_type w.next true,
              .create_topic topic_name type_name (some (w.next + 1)),
              .create_publisher qos (some (w.next + 2)),
              .create_datawriter (w.next + 2) (w.next + 1) self (some (w.next + 3))] } := by
  simp [Publisher.Publisher, bind, M.bind, pure, M.pure, new_TypeSupport, register_type,
    get_type_name, create_topic, create_publisher, create_datawriter, h]

theorem ctor_null (type_name : String) (self : Nat) (topic_name : String) (qos : PublisherQos)
    (w : World) :
    Publisher.Publisher type_name self topic_name .nullptr qos w =
      .thrown "DomainParticipant cannot be null." w := by
  simp [Publisher.Publisher, bind, M.bind, throw_runtime_error]

theorem ctor_reg_fail (type_name : String) (self : Nat) (topic_name : String) (qos : PublisherQos)
    (w : World) (h : w.answers.register_type = false) :
    Publisher.Publisher type_name self topic_name .valid qos w = .undefined := by
  simp [Publisher.Publisher, bind, M.bind, pure, M.pure, new_TypeSupport, register_type,
      get_type_name, delete_TypeSupport, throw_runtime_error, h, find?_false]

theorem filter_not_eq_self {α : Type} (f : α → Nat) (l : List α) (n a : Nat)
    (h : ∀ x ∈ l, f x < n) (ha : n ≤ a) : l.filter (fun x => !decide (f x = a)) = l := by
  rw [List.filter_eq_self]
  intro x hx
  have := h x hx
  simp; omega

theorem ctor_topic_fail (type_name : String) (self : Nat) (topic_name : String)
    (qos : PublisherQos) (w : World) (hwf : w.WF)
    (h1 : w.answers.register_type = true) (h2 : w.answers.create_topic = false) :
    Publisher.Publisher type_name self topic_name .valid qos w =
      .thrown ("Error creating DDS Topic: " ++ topic_name)
        { w with
          participant := { w.participant with types := w.participant.types.insert type_name }
          next := w.next + 1
          calls := w.calls ++ [.new_TypeSupport w.next, .register_type w.next true,
            .create_topic topic_name type_name none, .delete_TypeSupport w.next] } := by
  obtain ⟨hs, -, -, -⟩ := hwf
  have e1 := filter_not_eq_self TypeSupport.addr w.heap w.next w.next hs (le_refl _)
  simp [Publisher.Publisher, bind, M.bind, pure, M.pure, new_TypeSupport, register_type,
    get_type_name, create_topic, delete_TypeSupport, throw_runtime_error, h1, h2, e1]

theorem ctor_publisher_fail (type_name : String) (self : Nat) (topic_name : String)
    (qos : PublisherQos) (w : World) (hwf : w.WF)
    (h1 : w.answers.register_type = true) (h2 : w.answers.create_topic = true)
    (h3 : w.answers.create_publisher = false) :
    Publisher.Publisher type_name self topic_name .valid qos w =
      .thrown "Error creating DDS Publisher."
        { w with
          participant := { w.participant with types := w.participant.types.insert type_name }
          next := w.next + 2
          calls := w.calls ++ [.new_TypeSupport w.next, .register_type w.next true,
            .create_topic topic_name type_name (some (w.next + 1)),
            .create_publisher qos none, .delete_topic (w.next + 1) true,
            .delete_TypeSupport w.next] } := by
  obtain ⟨hs, ht, -, hd⟩ := hwf
  have e1 := filter_not_eq_self TypeSupport.addr w.heap w.next w.next hs (le_refl _)
  have e2 := filter_not_eq_self Topic.addr w.participant.topics w.next (w.next + 1) ht
    (Nat.le_succ _)
  have e3 : ∀ x ∈ w.participant.writers, ¬ x.topic = w.next + 1 := fun x hx => by
    have := hd x hx; omega
  simp [Publisher.Publisher, bind, M.bind, pure, M.pure, new_TypeSupport, register_type,
    get_type_name, create_topic, create_publisher, delete_topic, delete_TypeSupport,
    throw_runtime_error, h1, h2, h3, e1, e2]
  rw [if_pos e3]
  simp [e1]

theorem ctor_datawriter_fail (type_name : String) (self : Nat) (topic_name : String)
    (qos : PublisherQos) (w : World) (hwf : w.WF)
    (h1 : w.answers.register_type = true) (h2 : w.answers.create_topic = true)
    (h3 : w.answers.create_publisher = true) (h4 : w.answers.create_datawriter = false) :
    Publisher.Publisher type_name self topic_name .valid qos w =
      .thrown ("Error creating DDS DataWriter for topic: " ++ topic_name)
        { w with
          participant := { w.participant with types := w.participant.types.insert type_name }
          next := w.next + 3
          calls := w.calls ++ [.new_TypeSupport w.next, .register_type w.next true,
            .create_topic topic_name type_name (some (w.next + 1)),
            .create_publisher qos (some (w.next + 2)),
            .create_datawriter (w.next + 2) (w.next + 1) self none,
            .delete_topic (w.next + 1) true, .delete_publisher (w.next + 2) true,
            .delete_TypeSupport w.next] } := by
  obtain ⟨hs, ht, hp, hd⟩ := hwf
  have e1 := filter_not_eq_self TypeSupport.addr w.heap w.next w.next hs (le_refl _)
  have e2 := filter_not_eq_self Topic.addr w.participant.topics w.next (w.next + 1) ht
    (Nat.le_succ _)
  have e3 : ∀ x ∈ w.participant.writers, ¬ x.topic = w.next + 1 := fun x hx => by
    have := hd x hx; omega
  have e4 := filter_not_eq_self PublisherEntity.addr w.participant.publishers w.next
    (w.next + 1 + 1) hp (by omega)
  have e5 : ∀ x ∈ w.participant.writers, ¬ x.publisher = w.next + 1 + 1 := fun x hx => by
    have := hd x hx; omega
  simp [Publisher.Publisher, bind, M.bind, pure, M.pure, new_TypeSupport, register_type,
    get_type_name, create_topic, create_publisher, create_datawriter, delete_topic,
    delete_publisher, delete_TypeSupport, throw_runtime_error, h1, h2, h3, h4, e1, e2, e4]
  rw [if_pos e3]
  simp only []
  rw [if_pos ⟨⟨_, List.mem_append_right _ (List.mem_singleton_self _), rfl⟩, e5⟩]
  simp [e1, e4]

theorem ctor_ok_answers (type_name : String) (self : Nat) (topic_name : String)
    (participant : ParticipantPtr) (qos : PublisherQos) (w : World) (p : Publisher) (w1 : World)
    (h : Publisher.Publisher type_name self topic_name participant qos w = .ok p w1) :
    participant = .valid ∧ w.answers = ⟨true, true, true, true⟩ := by
  cases participant with
  | nullptr => rw [ctor_null] at h; cases h
  | valid =>
    refine ⟨rfl, ?_⟩
    rcases w with ⟨part, heap, next, calls, ⟨a1, a2, a3, a4⟩⟩
    cases a1
    · rw [ctor_reg_fail _ _ _ _ _ rfl] at h; cases h
    cases a2
    · exfalso
      simp [Publisher.Publisher, bind, M.bind, pure, M.pure, new_TypeSupport, register_type,
        get_type_name, create_topic, delete_TypeSupport, throw_runtime_error] at h
    cases a3
    · exfalso
      simp [Publisher.Publisher, bind, M.bind, pure, M.pure, new_TypeSupport, register_type,
        get_type_name, create_topic, create_publisher, delete_TypeSupport, delete_topic,
        throw_runtime_error] at h
      repeat' (split_ifs at h <;> simp at h)
    cases a4
    · exfalso
      simp [Publisher.Publisher, bind, M.bind, pure, M.pure, new_TypeSupport, register_type,
        get_type_name, create_topic, create_publisher, create_datawriter, delete_TypeSupport,
        delete_topic, delete_publisher, throw_runtime_error] at h
      repeat' (split_ifs at h <;> simp at h)
    rfl

theorem wrap32_of_range (x : Int) (h1 : -2147483648 ≤ x) (h2 : x < 2147483648) :
    wrap32 x = x := by
  unfold wrap32; omega

theorem wrap32_succ (x : Int) : wrap32 (wrap32 x + 1) = wrap32 (x + 1) := by
  unfold wrap32; omega

theorem wrap32_pred (x : Int) : wrap32 (wrap32 x - 1) = wrap32 (x - 1) := by
  unfold wrap32; omega

theorem deliver_append (p : Publisher) (evs : List PublicationMatched) (ev : PublicationMatched) :
    p.deliver (evs ++ [ev]) = ((p.deliver evs).on_publication_matched ev).1 := by
  simp [Publisher.deliver, List.foldl_append]

theorem net_append (evs : List PublicationMatched) (ev : PublicationMatched) :
    net (evs ++ [ev]) =
      net evs + (if ev.current_count_change = 1 then 1 else 0)
        - (if ev.current_count_change = -1 then 1 else 0) := by
  unfold net match_events unmatch_events
  simp only [List.countP_append, List.countP_cons, List.countP_nil]
  split_ifs <;> simp_all <;> omega

theorem deliver_num (p : Publisher) (h0 : p.num_matches_ = 0) (evs : List PublicationMatched) :
    (p.deliver evs).num_matches_ = wrap32 (net evs) := by
  induction evs using List.reverseRecOn with
  | nil => simp [Publisher.deliver, net, match_events, unmatch_events, h0, wrap32]
  | append_singleton l a ih =>
    rw [deliver_append, net_append]
    unfold Publisher.on_publication_matched
    by_cases h1 : a.current_count_change = 1
    · simp [h1, ih, wrap32_succ]
    · by_cases h2 : a.current_count_change = -1
      · simp [h1, h2, ih, wrap32_pred]
      · simp [h1, h2, ih]

theorem deliver_matched (p : Publisher) (h0 : p.num_matches_ = 0) (hm : p.is_matched_ = false)
    (evs : List PublicationMatched)
    (hr : ∀ pre, pre <+: evs → 0 ≤ net pre ∧ net pre < 2147483648) :
    (p.deliver evs).is_matched_ = true ↔ 1 ≤ net evs := by
  induction evs using List.reverseRecOn with
  | nil => simp [Publisher.deliver, net, match_events, unmatch_events, hm]
  | append_singleton l a ih =>
    have hl := hr l (List.prefix_append l [a])
    have hla := hr (l ++ [a]) (List.prefix_refl _)
    have ih1 := ih (fun pre hpre => hr pre (hpre.trans (List.prefix_append l [a])))
    have hn := deliver_num p h0 l
    rw [wrap32_of_range _ (by omega) hl.2] at hn
    rw [net_append] at hla ⊢
    rw [deliver_append]
    unfold Publisher.on_publication_matched
    rcases a with ⟨g, c⟩
    by_cases h1 : c = 1
    · subst h1
      simp only [if_true]
      simp
      omega
    · by_cases h2 : c = -1
      · subst h2
        simp only [hn] at hla ⊢
        norm_num at hla ⊢
        rw [wrap32_of_range _ (by omega) (by omega)]
        by_cases h3 : net l - 1 = 0
        · simp [h3]
        · simp [h3, ih1]; omega
      · simp [h1, h2, ih1]

theorem destructor_on_publication_matched (p : Publisher) (ev : PublicationMatched) :
    (p.on_publication_matched ev).1.destructor = p.destructor := by
  unfold Publisher.on_publication_matched
  split_ifs <;> rfl

theorem destructor_deliver (p : Publisher) (evs : List PublicationMatched) :
    (p.deliver evs).destructor = p.destructor := by
  induction evs using List.reverseRecOn with
  | nil => rfl
  | append_singleton l a ih => rw [deliver_append, destructor_on_publication_matched, ih]

theorem destructor_after_ctor (type_name : String) (self : Nat) (topic_name : String)
    (qos : PublisherQos) (w : World) (hwf : w.WF) :
    Publisher.destructor
      { topic_name_ := topic_name, participant_ := .valid, publisher_ := some (w.next + 2),
        writer_ := some (w.next + 3), type_support_ := some w.next,
        topic_ := some (w.next + 1), num_matches_ := 0, is_matched_ := false }
      { w with
        participant := {
          types := w.participant.types.insert type_name
          topics := w.participant.topics ++ [⟨w.next + 1, topic_name, type_name⟩]
          publishers := w.participant.publishers ++ [⟨w.next + 2, qos⟩]
          writers := w.participant.writers ++ [⟨w.next + 3, w.next + 2, w.next + 1, self⟩] }
        heap := ⟨w.next, type_name⟩ :: w.heap
        next := w.next + 4
        calls := w.calls ++ [.new_TypeSupport w.next, .register_type w.next true,
          .create_topic topic_name type_name (some (w.next + 1)),
          .create_publisher qos (some (w.next + 2)),
          .create_datawriter (w.next + 2) (w.next + 1) self (some (w.next + 3))] } =
    .ok ()
      { w with
        participant := { w.participant with types := w.participant.types.insert type_name }
        next := w.next + 4
        calls := w.calls ++ [.new_TypeSupport w.next, .register_type w.next true,
          .create_topic topic_name type_name (some (w.next + 1)),
          .create_publisher qos (some (w.next + 2)),
          .create_datawriter (w.next + 2) (w.next + 1) self (some (w.next + 3)),
          .delete_datawriter (w.next + 2) (w.next + 3) true,
          .delete_publisher (w.next + 2) true,
          .delete_topic (w.next + 1) true,
          .delete_TypeSupport w.next] } := by
  obtain ⟨hs, ht, hp, hd⟩ := hwf
  have e1 := filter_not_eq_self TypeSupport.addr w.heap w.next w.next hs (le_refl _)
  have e2 := filter_not_eq_self Topic.addr w.participant.topics w.next (w.next + 1) ht
    (Nat.le_succ _)
  have e3 : ∀ x ∈ w.participant.writers, ¬ x.topic = w.next + 1 := fun x hx => by
    have := hd x hx; omega
  have e4 := filter_not_eq_self PublisherEntity.addr w.participant.publishers w.next
    (w.next + 2) hp (by omega)
  have e5 : ∀ x ∈ w.participant.writers, ¬ x.publisher = w.next + 2 := fun x hx => by
    have := hd x hx; omega
  have e6 := filter_not_eq_self DataWriter.addr w.participant.writers w.next
    (w.next + 3) (fun x hx => (hd x hx).1) (by omega)
  simp [Publisher.destructor, bind, M.bind, pure, M.pure, delete_datawriter, delete_topic,
    delete_publisher, delete_TypeSupport, e1, e2, e4, e6]
  rw [if_pos e5]
  simp only []
  rw [if_pos ⟨⟨_, List.mem_append_right _ (List.mem_singleton_self _), rfl⟩, e3⟩]
  simp [e1, e2]

theorem world_ok_WF : world_ok.WF := by
  simp [World.WF, world_ok]

theorem ctor_world_ok :
    Publisher.Publisher "Msg" 99 "chatter" .valid 7 world_ok = .ok publisher_ok world_constructed := by
  rfl

theorem range_of_inits (evs : List PublicationMatched) (lo hi : Int)
    (h : ∀ pre ∈ evs.inits, lo ≤ net pre ∧ net pre < hi) :
    ∀ pre, pre <+: evs → lo ≤ net pre ∧ net pre < hi :=
  fun pre hpre => h pre ((List.mem_inits _ _).2 hpre)

theorem ctor_ok_eq (type_name : String) (self : Nat) (topic_name : String)
    (participant : ParticipantPtr) (qos : PublisherQos) (w : World) (p : Publisher) (w1 : World)
    (h : Publisher.Publisher type_name self topic_name participant qos w = .ok p w1) :
    p = { topic_name_ := topic_name, participant_ := .valid, publisher_ := some (w.next + 2),
          writer_ := some (w.next + 3), type_support_ := some w.next,
          topic_ := some (w.next + 1), num_matches_ := 0, is_matched_ := false } ∧
    w1 = { w with
            participant := {
              types := w.participant.types.insert type_name
              topics := w.participant.topics ++ [⟨w.next + 1, topic_name, type_name⟩]
              publishers := w.participant.publishers ++ [⟨w.next + 2, qos⟩]
              writers := w.participant.writers ++ [⟨w.next + 3, w.next + 2, w.next + 1, self⟩] }
            heap := ⟨w.next, type_name⟩ :: w.heap
            next := w.next + 4
            calls := w.calls ++ [.new_TypeSupport w.next, .register_type w.next true,
              .create_topic topic_name type_name (some (w.next + 1)),
              .create_publisher qos (some (w.next + 2)),
              .create_datawriter (w.next + 2) (w.next + 1) self (some (w.next + 3))] } := by
  obtain ⟨hp, ha⟩ := ctor_ok_answers _ _ _ _ _ _ _ _ h
  subst hp
  rw [ctor_success _ _ _ _ _ ha] at h
  injection h with h1 h2
  exact ⟨h1.symm, h2.symm⟩

theorem ctor_preserves_WF (type_name : String) (self : Nat) (topic_name : String)
    (participant : ParticipantPtr) (qos : PublisherQos) (w : World) (p : Publisher) (w1 : World)
    (hwf : w.WF)
    (h : Publisher.Publisher type_name self topic_name participant qos w = .ok p w1) :
    w1.WF := by
  obtain ⟨-, hw1⟩ := ctor_ok_eq _ _ _ _ _ _ _ _ h
  obtain ⟨hs, ht, hp, hd⟩ := hwf
  subst hw1
  refine ⟨?_, ?_, ?_, ?_⟩
  · intro s hs1
    rcases List.mem_cons.1 hs1 with rfl | hs1
    · show w.next < w.next + 4
      omega
    · have := hs s hs1
      show s.addr < w.next + 4
      omega
  · intro t ht1
    rcases List.mem_append.1 ht1 with ht1 | ht1
    · have := ht t ht1
      show t.addr < w.next + 4
      omega
    · rw [List.mem_singleton.1 ht1]
      show w.next + 1 < w.next + 4
      omega
  · intro q hq1
    rcases List.mem_append.1 hq1 with hq1 | hq1
    · have := hp q hq1
      show q.addr < w.next + 4
      omega
    · rw [List.mem_singleton.1 hq1]
      show w.next + 2 < w.next + 4
      omega
  · intro d hd1
    rcases List.mem_append.1 hd1 with hd1 | hd1
    · have := hd d hd1
      show d.addr < w.next + 4 ∧ d.publisher < w.next + 4 ∧ d.topic < w.next + 4
      omega
    · rw [List.mem_singleton.1 hd1]
      show w.next + 3 < w.next + 4 ∧ w.next + 2 < w.next + 4 ∧ w.next + 1 < w.next + 4
      omega

/-! ## The constructor -/

/-- C5. Constructing a Publisher with a null participant throws the runtime error
"DomainParticipant cannot be null." and returns the world exactly as it found it: the list of
middleware calls has not grown, no type is registered, no topic, publisher or data writer is
created and nothing is allocated. -/
theorem null_participant_throws_before_any_call (type_name : String) (self : Nat)
    (topic_name : String) (qos : PublisherQos) (w : World) :
    Publisher.Publisher type_name self topic_name .nullptr qos w =
      .thrown "DomainParticipant cannot be null." w :=
  ctor_null type_name self topic_name qos w

/-- C4. With a non-null participant and all four middleware steps succeeding, the constructor
returns an object; the calls it made are, in order, the allocation of the type support, the
registration of the type, `create_topic` with the given topic name and the type name of the type
support, `create_publisher` with the given QoS and `create_datawriter` on that publisher and
that topic with the object itself as listener; the participant holds the registered type and the
three new entities; and `GetWriter()` is that data writer, which is not null. -/
theorem construction_success (type_name : String) (self : Nat) (topic_name : String)
    (qos : PublisherQos) (w : World)
    (h1 : w.answers.register_type = true) (h2 : w.answers.create_topic = true)
    (h3 : w.answers.create_publisher = true) (h4 : w.answers.create_datawriter = true) :
    ∃ p w1 ts topic pub wr,
      Publisher.Publisher type_name self topic_name .valid qos w = .ok p w1 ∧
      w1.calls = w.calls ++ [.new_TypeSupport ts, .register_type ts true,
        .create_topic topic_name type_name (some topic), .create_publisher qos (some pub),
        .create_datawriter pub topic self (some wr)] ∧
      type_name ∈ w1.participant.types ∧
      w1.participant.topics = w.participant.topics ++ [⟨topic, topic_name, type_name⟩] ∧
      w1.participant.publishers = w.participant.publishers ++ [⟨pub, qos⟩] ∧
      w1.participant.writers = w.participant.writers ++ [⟨wr, pub, topic, self⟩] ∧
      p.GetWriter = some wr := by
  have ha : w.answers = ⟨true, true, true, true⟩ := by
    rcases w with ⟨_, _, _, _, ⟨a1, a2, a3, a4⟩⟩
    simp_all
  exact ⟨_, _, w.next, w.next + 1, w.next + 2, w.next + 3,
    ctor_success type_name self topic_name qos w ha, rfl, by simp, rfl, rfl, rfl, rfl⟩

/-- Witness for C4 on `world_ok`. -/
theorem construction_success_witness :
    ∃ p w1 ts topic pub wr,
      Publisher.Publisher "Msg" 99 "chatter" .valid 7 world_ok = .ok p w1 ∧
      w1.calls = world_ok.calls ++ [.new_TypeSupport ts, .register_type ts true,
        .create_topic "chatter" "Msg" (some topic), .create_publisher 7 (some pub),
        .create_datawriter pub topic 99 (some wr)] ∧
      "Msg" ∈ w1.participant.types ∧
      w1.participant.topics = world_ok.participant.topics ++ [⟨topic, "chatter", "Msg"⟩] ∧
      w1.participant.publishers = world_ok.participant.publishers ++ [⟨pub, 7⟩] ∧
      w1.participant.writers = world_ok.participant.writers ++ [⟨wr, pub, topic, 99⟩] ∧
      p.GetWriter = some wr :=
  construction_success "Msg" 99 "chatter" 7 world_ok rfl rfl rfl rfl

/-- C1, the failing path. When the type registration fails, the constructor deletes the
type-support object and then reads its type name to build the message of the exception: a use
of a freed object, so the run is undefined instead of a clean throw. -/
theorem register_failure_reads_freed_type_support (type_name : String) (self : Nat)
    (topic_name : String) (qos : PublisherQos) (w : World)
    (h : w.answers.register_type = false) :
    Publisher.Publisher type_name self topic_name .valid qos w = .undefined :=
  ctor_reg_fail type_name self topic_name qos w h

/-- Witness for the failing path of C1: registration fails on an otherwise healthy world. -/
theorem register_failure_reads_freed_type_support_witness :
    (world_with ⟨false, true, true, true⟩).answers.register_type = false ∧
    Publisher.Publisher "Msg" 99 "chatter" .valid 7 (world_with ⟨false, true, true, true⟩) =
      .undefined :=
  ⟨rfl, register_failure_reads_freed_type_support "Msg" 99 "chatter" 7 _ rfl⟩

/-- The three later failures of C1 do roll back: when registration succeeds and `create_topic`,
`create_publisher` or `create_datawriter` returns null, the constructor throws and the topics,
publishers, data writers and live type-support objects are those from before the call. -/
theorem later_failures_roll_back (type_name : String) (self : Nat) (topic_name : String)
    (qos : PublisherQos) (w : World) (hwf : w.WF)
    (h1 : w.answers.register_type = true)
    (hf : w.answers.create_topic = false ∨ w.answers.create_publisher = false ∨
      w.answers.create_datawriter = false) :
    ∃ what w1,
      Publisher.Publisher type_name self topic_name .valid qos w = .thrown what w1 ∧
      w1.participant.topics = w.participant.topics ∧
      w1.participant.publishers = w.participant.publishers ∧
      w1.participant.writers = w.participant.writers ∧
      w1.heap = w.heap := by
  cases h2 : w.answers.create_topic with
  | false => exact ⟨_, _, ctor_topic_fail _ _ _ _ _ hwf h1 h2, rfl, rfl, rfl, rfl⟩
  | true =>
    cases h3 : w.answers.create_publisher with
    | false => exact ⟨_, _, ctor_publisher_fail _ _ _ _ _ hwf h1 h2 h3, rfl, rfl, rfl, rfl⟩
    | true =>
      cases h4 : w.answers.create_datawriter with
      | false =>
        exact ⟨_, _, ctor_datawriter_fail _ _ _ _ _ hwf h1 h2 h3 h4, rfl, rfl, rfl, rfl⟩
      | true => simp [h2, h3, h4] at hf

/-! ## The destructor -/

/-- C6. Destroying a successfully constructed Publisher (whatever callbacks it received in
between) runs to completion and makes exactly four calls, in this order: `delete_datawriter` of
its writer on its publisher, `delete_publisher`, `delete_topic`, and the deletion of the
type-support object.  With a middleware that refuses to delete a publisher that still has a
writer and a topic that a writer still refers to, each of the three deletions succeeds, and the
topics, publishers, data writers and live type-support objects are again those from before the
construction. -/
theorem destruction_undoes_construction (type_name : String) (self : Nat) (topic_name : String)
    (participant : ParticipantPtr) (qos : PublisherQos) (w : World) (p : Publisher) (w1 : World)
    (evs : List PublicationMatched) (hwf : w.WF)
    (hc : Publisher.Publisher type_name self topic_name participant qos w = .ok p w1) :
    ∃ w2 ts topic pub wr,
      p.type_support_ = some ts ∧ p.topic_ = some topic ∧ p.publisher_ = some pub ∧
      p.GetWriter = some wr ∧
      (p.deliver evs).destructor w1 = .ok () w2 ∧
      w2.calls = w1.calls ++ [.delete_datawriter pub wr true, .delete_publisher pub true,
        .delete_topic topic true, .delete_TypeSupport ts] ∧
      w2.participant.topics = w.participant.topics ∧
      w2.participant.publishers = w.participant.publishers ∧
      w2.participant.writers = w.participant.writers ∧
      w2.heap = w.heap := by
  obtain ⟨hp, hw1⟩ := ctor_ok_eq _ _ _ _ _ _ _ _ hc
  subst hp hw1
  have hd := destructor_after_ctor type_name self topic_name qos w hwf
  refine ⟨_, w.next, w.next + 1, w.next + 2, w.next + 3, rfl, rfl, rfl, rfl,
    (congrFun (destructor_deliver _ evs) _).trans hd, ?_, rfl, rfl, rfl, rfl⟩
  simp

/-- Witness for C6 on `world_ok`, with one match and one unmatch before the destruction. -/
theorem destruction_undoes_construction_witness :
    world_ok.WF ∧
    Publisher.Publisher "Msg" 99 "chatter" .valid 7 world_ok = .ok publisher_ok world_constructed ∧
    ∃ w2 ts topic pub wr,
      publisher_ok.type_support_ = some ts ∧ publisher_ok.topic_ = some topic ∧
      publisher_ok.publisher_ = some pub ∧ publisher_ok.GetWriter = some wr ∧
      (publisher_ok.deliver [matched, unmatched]).destructor world_constructed = .ok () w2 ∧
      w2.calls = world_constructed.calls ++ [.delete_datawriter pub wr true,
        .delete_publisher pub true, .delete_topic topic true, .delete_TypeSupport ts] ∧
      w2.participant.topics = world_ok.participant.topics ∧
      w2.participant.publishers = world_ok.participant.publishers ∧
      w2.participant.writers = world_ok.participant.writers ∧
      w2.heap = world_ok.heap :=
  ⟨world_ok_WF, ctor_world_ok,
    destruction_undoes_construction "Msg" 99 "chatter" .valid 7 world_ok publisher_ok
      world_constructed [matched, unmatched] world_ok_WF ctor_world_ok⟩

/-! ## The match-count callback -/

theorem match_events_replicate (n : Nat) : match_events (List.replicate n matched) = n := by
  induction n with
  | zero => rfl
  | succ k ih =>
    unfold match_events at ih ⊢
    rw [List.replicate_succ, List.countP_cons, ih]
    rfl

theorem unmatch_events_replicate (n : Nat) : unmatch_events (List.replicate n matched) = 0 := by
  induction n with
  | zero => rfl
  | succ k ih =>
    unfold unmatch_events at ih ⊢
    rw [List.replicate_succ, List.countP_cons, ih]
    rfl

theorem net_replicate (n : Nat) : net (List.replicate n matched) = (n : Int) := by
  unfold net
  rw [match_events_replicate, unmatch_events_replicate]
  simp

theorem GetNumSubscribers_deliver (p : Publisher) (h0 : p.num_matches_ = 0)
    (evs : List PublicationMatched) : (p.deliver evs).GetNumSubscribers = wrap32 (net evs) :=
  deliver_num p h0 evs

theorem IsMatched_deliver_replicate (p : Publisher) (n : Nat) (hn : 0 < n) :
    (p.deliver (List.replicate n matched)).IsMatched = true := by
  cases n with
  | zero => omega
  | succ k =>
    rw [List.replicate_succ', deliver_append]
    rfl

/-- C2 fails as stated. An unmatch callback followed by a match callback, delivered to a freshly
constructed Publisher, leaves `IsMatched()` true while `GetNumSubscribers()` is 0.  After 2^31
match callbacks `IsMatched()` is true while the 32-bit counter has wrapped to -2^31. -/
theorem unmatch_then_match_breaks_IsMatched :
    Publisher.Publisher "Msg" 99 "chatter" .valid 7 world_ok = .ok publisher_ok world_constructed ∧
    (publisher_ok.deliver [unmatched, matched]).IsMatched = true ∧
    (publisher_ok.deliver [unmatched, matched]).GetNumSubscribers = 0 ∧
    ¬ ((publisher_ok.deliver [unmatched, matched]).IsMatched = true ↔
        1 ≤ (publisher_ok.deliver [unmatched, matched]).GetNumSubscribers) ∧
    (publisher_ok.deliver (List.replicate 2147483648 matched)).IsMatched = true ∧
    (publisher_ok.deliver (List.replicate 2147483648 matched)).GetNumSubscribers =
      -2147483648 :=
  ⟨ctor_world_ok, by decide, by decide, by decide,
    IsMatched_deliver_replicate publisher_ok 2147483648 (by decide),
    (GetNumSubscribers_deliver publisher_ok rfl (List.replicate 2147483648 matched)).trans
      ((congrArg wrap32 (net_replicate 2147483648)).trans (by decide))⟩

/-- C2, amended. After any sequence of callbacks delivered to a freshly constructed Publisher in
which every leading part holds at least as many match events as unmatch events, and at most
2^31 - 1 more, `IsMatched()` is true if and only if `GetNumSubscribers()` is at least 1. -/
theorem IsMatched_iff_subscribers (type_name : String) (self : Nat) (topic_name : String)
    (participant : ParticipantPtr) (qos : PublisherQos) (w : World) (p : Publisher) (w1 : World)
    (evs : List PublicationMatched)
    (hc : Publisher.Publisher type_name self topic_name participant qos w = .ok p w1)
    (hr : ∀ pre, pre <+: evs → 0 ≤ net pre ∧ net pre < 2147483648) :
    (p.deliver evs).IsMatched = true ↔ 1 ≤ (p.deliver evs).GetNumSubscribers := by
  obtain ⟨hp, -⟩ := ctor_ok_eq _ _ _ _ _ _ _ _ hc
  have h0 : p.num_matches_ = 0 := by rw [hp]
  have hm : p.is_matched_ = false := by rw [hp]
  have hn := deliver_num p h0 evs
  have he := hr evs (List.prefix_refl _)
  rw [wrap32_of_range _ (by omega) he.2] at hn
  unfold Publisher.IsMatched Publisher.GetNumSubscribers
  rw [hn]
  exact deliver_matched p h0 hm evs hr

/-- Witness for the amended C2: two matches and one unmatch on `publisher_ok`. -/
theorem IsMatched_iff_subscribers_witness :
    Publisher.Publisher "Msg" 99 "chatter" .valid 7 world_ok = .ok publisher_ok world_constructed ∧
    (∀ pre, pre <+: [matched, matched, unmatched] → 0 ≤ net pre ∧ net pre < 2147483648) ∧
    ((publisher_ok.deliver [matched, matched, unmatched]).IsMatched = true ↔
      1 ≤ (publisher_ok.deliver [matched, matched, unmatched]).GetNumSubscribers) :=
  ⟨ctor_world_ok, range_of_inits _ _ _ (by decide),
    IsMatched_iff_subscribers "Msg" 99 "chatter" .valid 7 world_ok publisher_ok world_constructed
      [matched, matched, unmatched] ctor_world_ok (range_of_inits _ _ _ (by decide))⟩

/-- C3 fails as stated. After 2^31 match callbacks on a freshly constructed Publisher the
32-bit counter has wrapped: `GetNumSubscribers()` is -2^31, while the number of match events
minus the number of unmatch events is 2^31. -/
theorem counter_wraps_after_2_pow_31_matches :
    Publisher.Publisher "Msg" 99 "chatter" .valid 7 world_ok = .ok publisher_ok world_constructed ∧
    (publisher_ok.deliver (List.replicate 2147483648 matched)).GetNumSubscribers =
      -2147483648 ∧
    (match_events (List.replicate 2147483648 matched) : Int) -
      (unmatch_events (List.replicate 2147483648 matched) : Int) = 2147483648 ∧
    (publisher_ok.deliver (List.replicate 2147483648 matched)).GetNumSubscribers ≠
      (match_events (List.replicate 2147483648 matched) : Int) -
        (unmatch_events (List.replicate 2147483648 matched) : Int) :=
  have hnet : net (List.replicate 2147483648 matched) = ((2147483648 : Nat) : Int) :=
    net_replicate 2147483648
  have h1 : (publisher_ok.deliver (List.replicate 2147483648 matched)).GetNumSubscribers =
      -2147483648 :=
    (GetNumSubscribers_deliver publisher_ok rfl (List.replicate 2147483648 matched)).trans
      ((congrArg wrap32 hnet).trans (by decide))
  have h2 : (match_events (List.replicate 2147483648 matched) : Int) -
      (unmatch_events (List.replicate 2147483648 matched) : Int) = 2147483648 :=
    hnet.trans (by decide)
  ⟨ctor_world_ok, h1, h2, fun h => absurd (h1.symm.trans (h.trans h2)) (by decide)⟩

/-- C3, amended. `GetNumSubscribers()` is 0 on a freshly constructed Publisher, and along any
sequence of callbacks on which the number of match events minus the number of unmatch events
stays within the range of `int` (from -2^31 to 2^31 - 1) at every point, each callback with
`current_count_change = 1` adds exactly 1 to it, each callback with `current_count_change = -1`
subtracts exactly 1, and at the end it equals the number of match events minus the number of
unmatch events. -/
theorem GetNumSubscribers_counts (type_name : String) (self : Nat) (topic_name : String)
    (participant : ParticipantPtr) (qos : PublisherQos) (w : World) (p : Publisher) (w1 : World)
    (evs : List PublicationMatched)
    (hc : Publisher.Publisher type_name self topic_name participant qos w = .ok p w1)
    (hr : ∀ pre, pre <+: evs → -2147483648 ≤ net pre ∧ net pre < 2147483648) :
    p.GetNumSubscribers = 0 ∧
    (∀ pre ev, pre ++ [ev] <+: evs → ev.current_count_change = 1 →
      (p.deliver (pre ++ [ev])).GetNumSubscribers = (p.deliver pre).GetNumSubscribers + 1) ∧
    (∀ pre ev, pre ++ [ev] <+: evs → ev.current_count_change = -1 →
      (p.deliver (pre ++ [ev])).GetNumSubscribers = (p.deliver pre).GetNumSubscribers - 1) ∧
    (p.deliver evs).GetNumSubscribers =
      (match_events evs : Int) - (unmatch_events evs : Int) := by
  obtain ⟨hp, -⟩ := ctor_ok_eq _ _ _ _ _ _ _ _ hc
  have h0 : p.num_matches_ = 0 := by rw [hp]
  have key : ∀ pre, pre <+: evs → (p.deliver pre).GetNumSubscribers = net pre := by
    intro pre hpre
    have hb := hr pre hpre
    unfold Publisher.GetNumSubscribers
    rw [deliver_num p h0, wrap32_of_range _ hb.1 hb.2]
  refine ⟨h0, ?_, ?_, key evs (List.prefix_refl _)⟩
  · intro pre ev hpre hev
    rw [key _ hpre, key _ ((List.prefix_append pre [ev]).trans hpre), net_append]
    simp [hev]
  · intro pre ev hpre hev
    rw [key _ hpre, key _ ((List.prefix_append pre [ev]).trans hpre), net_append]
    simp [hev]

/-- Witness for the amended C3: two matches and one unmatch on `publisher_ok`. -/
theorem GetNumSubscribers_counts_witness :
    Publisher.Publisher "Msg" 99 "chatter" .valid 7 world_ok = .ok publisher_ok world_constructed ∧
    publisher_ok.GetNumSubscribers = 0 ∧
    (publisher_ok.deliver [matched, unmatched, matched, matched]).GetNumSubscribers =
      (match_events [matched, unmatched, matched, matched] : Int) -
        (unmatch_events [matched, unmatched, matched, matched] : Int) :=
  have h := GetNumSubscribers_counts "Msg" 99 "chatter" .valid 7 world_ok publisher_ok
    world_constructed [matched, unmatched, matched, matched] ctor_world_ok
    (range_of_inits _ _ _ (by decide))
  ⟨ctor_world_ok, h.1, h.2.2.2⟩

end sturdds
